import Mathlib

/-!
Verification of the full_planes flight-search application (src/app.py and
src/get_booked_flights.py) against its specification.

The embedding is shallow: each Python function relevant to the claims is
translated into an executable Lean definition.  External effects (the quota
file on disk, the wall clock, HTTP responses of the Amadeus API, thread-pool
completion order) are passed explicitly as values, so that the sequential
control flow of the Python code becomes ordinary functional code:

* the persisted quota file `api_quota.json` is an `Option QuotaUsage`
  (`none` models an absent or corrupt file, which `json.load` turns into
  `FileNotFoundError`/`JSONDecodeError`);
* the current calendar day (`date.today()`) is a `String` parameter;
* success of the `json.dump` write-back is a `Bool` parameter;
* the wall clock (`time.time()`) is an `Int` parameter and the auth
  endpoint's answer an explicit `AuthResponse` value;
* one HTTP answer of the flight-offers endpoint is an `Attempt`
  (a status code together with the offers its body parses to, or a
  transport-level `requests.exceptions.RequestException`);
* the thread pool of `/search` is modelled by the list of per-day
  `find_flights` results in completion order.

Because `check_and_consume_quota` performs its whole read-modify-write
inside `quota_lock`, a set of concurrent reservations is serialised by the
lock; it is therefore modelled as a sequential fold over the requests.
-/

/-- A parsed flight offer, the `flight_info` dictionary built by
`find_flights` in src/app.py (lines 277-288). -/
structure Offer where
  date : String
  departure_time : String
  arrival_time : String
  flight : String
  airline_name : String
  seats : Nat
  price : String
deriving DecidableEq, Repr

namespace App

/-- Constant `DAILY_API_CALL_LIMIT` from src/app.py line 49. -/
def DAILY_API_CALL_LIMIT : Nat := 1000

/-- The JSON record stored in `api_quota.json`: `{'date': ..., 'count': ...}`. -/
structure QuotaUsage where
  date : String
  count : Nat
deriving DecidableEq, Repr

/-- The call count that `check_and_consume_quota` effectively sees for
`today` in a given persisted file: 0 if the file is absent or corrupt, 0 if
the stored date is not today (new-day reset), else the stored count. -/
def effCount (today : String) : Option QuotaUsage → Nat
  | none => 0
  | some u => if u.date = today then u.count else 0

/-- Result of one `check_and_consume_quota` call: the returned boolean and
the persisted file afterwards. -/
structure QuotaOutcome where
  ok : Bool
  file : Option QuotaUsage
deriving DecidableEq, Repr

/-- Function `check_and_consume_quota` from src/app.py lines 135-172.  `file` is the
current content of `api_quota.json` (`none` = absent/corrupt), `writeOk`
tells whether the write-back of the updated record succeeds (an `IOError`
during the write makes the function return `False`). -/
def check_and_consume_quota (today : String) (file : Option QuotaUsage)
    (writeOk : Bool) (calls_to_make : Nat) : QuotaOutcome :=
  let usage : QuotaUsage :=
    match file with
    | some u => if u.date = today then u else { date := today, count := 0 }
    | none => { date := today, count := 0 }
  if DAILY_API_CALL_LIMIT < usage.count + calls_to_make then
    { ok := false, file := file }
  else if writeOk then
    { ok := true, file := some { date := today, count := usage.count + calls_to_make } }
  else
    { ok := false, file := file }

/-- Function `get_remaining_quota` from src/app.py lines 174-192 (`Nat` subtraction
truncates at 0, matching the `max(0, ...)` in the Python code). -/
def get_remaining_quota (today : String) : Option QuotaUsage → Nat
  | none => DAILY_API_CALL_LIMIT
  | some u =>
    if u.date = today then DAILY_API_CALL_LIMIT - u.count else DAILY_API_CALL_LIMIT

/-- A sequence of reservation requests `(calls_to_make, writeOk)` executed
one after the other (the `quota_lock` serialises concurrent callers).
Returns the per-call results `(returned boolean, requested amount)` and the
final persisted file. -/
def runReservations (today : String) :
    Option QuotaUsage → List (Nat × Bool) → List (Bool × Nat) × Option QuotaUsage
  | file, [] => ([], file)
  | file, (n, w) :: rest =>
    let r := check_and_consume_quota today file w n
    let t := runReservations today r.file rest
    ((r.ok, n) :: t.1, t.2)

/-- Total number of calls granted: the sum of the requested amounts over
the reservations that returned `true`. -/
def sumGranted (results : List (Bool × Nat)) : Nat :=
  (results.filter (fun p => p.1)).foldr (fun p acc => p.2 + acc) 0

theorem sumGranted_cons_true (n : Nat) (t : List (Bool × Nat)) :
    sumGranted ((true, n) :: t) = n + sumGranted t := by
  simp [sumGranted]

theorem sumGranted_cons_false (n : Nat) (t : List (Bool × Nat)) :
    sumGranted ((false, n) :: t) = sumGranted t := by
  simp [sumGranted]

theorem check_usage_count (today : String) (file : Option QuotaUsage)
    (writeOk : Bool) (n : Nat) :
    check_and_consume_quota today file writeOk n =
      if DAILY_API_CALL_LIMIT < effCount today file + n then
        { ok := false, file := file }
      else if writeOk then
        { ok := true, file := some { date := today, count := effCount today file + n } }
      else
        { ok := false, file := file } := by
  cases file with
  | none => rfl
  | some u =>
    by_cases h : u.date = today <;>
      simp [check_and_consume_quota, effCount, h]

theorem effCount_some_today (today : String) (c : Nat) :
    effCount today (some { date := today, count := c }) = c := by
  simp [effCount]

/-- Under the invariant `effCount ≤ LIMIT`, the granted total never brings
the effective count past the limit. -/
theorem sumGranted_le_of_le (today : String) :
    ∀ (reqs : List (Nat × Bool)) (file : Option QuotaUsage),
      effCount today file ≤ DAILY_API_CALL_LIMIT →
      sumGranted (runReservations today file reqs).1 + effCount today file ≤
        DAILY_API_CALL_LIMIT
  | [], file, h => by simpa [runReservations, sumGranted] using h
  | (n, w) :: rest, file, h => by
    rw [runReservations]
    rcases hgt : decide (DAILY_API_CALL_LIMIT < effCount today file + n) with _ | _
    · -- within limit
      have hle : ¬ DAILY_API_CALL_LIMIT < effCount today file + n := by
        simpa using hgt
      cases w with
      | true =>
        have hq : check_and_consume_quota today file true n =
            { ok := true, file := some { date := today, count := effCount today file + n } } := by
          rw [check_usage_count]; simp [hle]
        have ih := sumGranted_le_of_le today rest
          (some { date := today, count := effCount today file + n })
          (by simpa [effCount_some_today] using Nat.le_of_not_lt hle)
        simp only [hq, sumGranted_cons_true]
        rw [effCount_some_today] at ih
        omega
      | false =>
        have hq : check_and_consume_quota today file false n =
            { ok := false, file := file } := by
          rw [check_usage_count]; simp [hle]
        have ih := sumGranted_le_of_le today rest file h
        simp only [hq, sumGranted_cons_false]
        exact ih
    · -- over limit: nothing granted, file unchanged
      have hgt' : DAILY_API_CALL_LIMIT < effCount today file + n := by
        simpa using hgt
      have hq : check_and_consume_quota today file w n = { ok := false, file := file } := by
        rw [check_usage_count]; simp [hgt']
      have ih := sumGranted_le_of_le today rest file h
      simp only [hq, sumGranted_cons_false]
      exact ih

/-- If the stored count already exceeds the limit, every reservation fails. -/
theorem sumGranted_zero_of_gt (today : String) :
    ∀ (reqs : List (Nat × Bool)) (file : Option QuotaUsage),
      DAILY_API_CALL_LIMIT < effCount today file →
      sumGranted (runReservations today file reqs).1 = 0
  | [], _, _ => by simp [runReservations, sumGranted]
  | (n, w) :: rest, file, h => by
    have hgt : DAILY_API_CALL_LIMIT < effCount today file + n := by omega
    have hq : check_and_consume_quota today file w n = { ok := false, file := file } := by
      rw [check_usage_count]; simp [hgt]
    rw [runReservations]
    simp only [hq, sumGranted_cons_false]
    exact sumGranted_zero_of_gt today rest file h

/-- Claim C1: for every sequence of reserve calls executed on the same
calendar day (serialised by `quota_lock`), the sum of the requested amounts
of the calls that return `true` never exceeds `DAILY_API_CALL_LIMIT`; and
any single call whose effective consumed count plus request exceeds the
limit returns `false` and leaves the persisted quota file unchanged. -/
theorem check_and_consume_quota_invariant (today : String)
    (f₀ f : Option QuotaUsage) (reqs : List (Nat × Bool)) (n : Nat) (w : Bool)
    (h : DAILY_API_CALL_LIMIT < effCount today f + n) :
    sumGranted (runReservations today f₀ reqs).1 ≤ DAILY_API_CALL_LIMIT ∧
    check_and_consume_quota today f w n = { ok := false, file := f } := by
  constructor
  · rcases Nat.lt_or_ge DAILY_API_CALL_LIMIT (effCount today f₀) with hgt | hle
    · rw [sumGranted_zero_of_gt today reqs f₀ hgt]
      exact Nat.zero_le _
    · have := sumGranted_le_of_le today reqs f₀ hle
      omega
  · rw [check_usage_count]; simp [h]

theorem check_and_consume_quota_invariant_witness :
    sumGranted (runReservations "2025-10-12" none [(600, true), (600, true)]).1 ≤
      DAILY_API_CALL_LIMIT ∧
    check_and_consume_quota "2025-10-12"
        (some { date := "2025-10-12", count := 600 }) true 600 =
      { ok := false, file := some { date := "2025-10-12", count := 600 } } :=
  check_and_consume_quota_invariant "2025-10-12" none
    (some { date := "2025-10-12", count := 600 }) [(600, true), (600, true)]
    600 true (by decide)

-- --- TOKEN CACHE (get_amadeus_token, src/app.py lines 196-231) ---

/-- The global `amadeus_token_cache` dictionary of src/app.py lines 54-57. -/
structure TokenCache where
  token : Option String
  expires_at : Int
deriving DecidableEq, Repr

/-- Outcome of the `requests.post` exchange against the auth endpoint:
either a parsed JSON body (`access_token`, optional `expires_in`), or a
`requests.exceptions.RequestException` (transport failure, or the
`HTTPError` that `raise_for_status` raises on a non-success status) whose
string form is `detail`. -/
inductive AuthResponse where
  | success (access_token : String) (expires_in : Option Int)
  | failure (detail : String)
deriving DecidableEq, Repr

/-- Ambient state read by `get_amadeus_token`: whether `AMADEUS_API_KEY`
and `AMADEUS_API_SECRET` are both configured, the current `time.time()`,
and the auth endpoint's answer if an exchange is performed. -/
structure TokenEnv where
  credsConfigured : Bool
  now : Int
  response : AuthResponse
deriving DecidableEq, Repr

/-- What `get_amadeus_token` does for the caller: return a token, return
`None`, or raise `AmadeusApiError msg`. -/
inductive TokenResult where
  | ok (token : Option String)
  | error (msg : String)
deriving DecidableEq, Repr

def TokenResult.isError : TokenResult → Bool
  | .ok _ => false
  | .error _ => true

/-- The `AmadeusApiError` message of src/app.py line 231. -/
def authErrorMsg (detail : String) : String :=
  "Fehler bei der Authentifizierung mit der Amadeus API. Bitte überprüfen Sie die Server-Logs. Details: " ++ detail

/-- The cache-miss path of `get_amadeus_token` (src/app.py lines 207-231):
check credentials, perform the exchange, cache and return the new token. -/
def requestNewToken (env : TokenEnv) (cache : TokenCache) : TokenResult × TokenCache :=
  if env.credsConfigured = false then (.ok none, cache)
  else
    match env.response with
    | .failure detail => (.error (authErrorMsg detail), cache)
    | .success tok expIn =>
      let e := expIn.getD 1799
      (.ok (some tok), { token := some tok, expires_at := env.now + e })

/-- Function `get_amadeus_token` from src/app.py lines 196-231.  The cache hit
requires a present token and `time.time() < expires_at - 60`. -/
def get_amadeus_token (env : TokenEnv) (cache : TokenCache) : TokenResult × TokenCache :=
  match cache.token with
  | some t =>
    if env.now < cache.expires_at - 60 then (.ok (some t), cache)
    else requestNewToken env cache
  | none => requestNewToken env cache

/-- Counterexample to claim C4: with unconfigured credentials,
`get_amadeus_token` does not raise an auth error — it returns `None`
(src/app.py lines 208-210); the caller `search` turns that `None` into an
error only afterwards. -/
theorem get_amadeus_token_no_creds_counterexample :
    (get_amadeus_token { credsConfigured := false, now := 0, response := .failure "boom" }
        { token := none, expires_at := 0 }).1 = .ok none ∧
    (get_amadeus_token { credsConfigured := false, now := 0, response := .failure "boom" }
        { token := none, expires_at := 0 }).1.isError = false := by
  constructor <;> rfl

/-- Claim C4 (amended): on a cache miss, `get_amadeus_token` returns `None`
without raising when the client id/secret are not configured, and raises
`AmadeusApiError` with a descriptive message containing the upstream
failure detail when the credential exchange fails at the transport level or
returns a non-success status. -/
theorem get_amadeus_token_failure_modes (env : TokenEnv) (cache : TokenCache)
    (hmiss : cache.token = none) :
    (env.credsConfigured = false → get_amadeus_token env cache = (.ok none, cache)) ∧
    (∀ d, env.credsConfigured = true → env.response = .failure d →
      get_amadeus_token env cache = (.error (authErrorMsg d), cache)) := by
  constructor
  · intro hc
    simp [get_amadeus_token, hmiss, requestNewToken, hc]
  · intro d hc hr
    simp [get_amadeus_token, hmiss, requestNewToken, hc, hr]

theorem get_amadeus_token_failure_modes_witness :
    get_amadeus_token { credsConfigured := true, now := 0, response := .failure "401 Client Error" }
        { token := none, expires_at := 0 } =
      (.error (authErrorMsg "401 Client Error"), { token := none, expires_at := 0 }) :=
  (get_amadeus_token_failure_modes
      { credsConfigured := true, now := 0, response := .failure "401 Client Error" }
      { token := none, expires_at := 0 } rfl).2 "401 Client Error" rfl rfl

/-- Counterexample to claim C5: a freshly obtained token is returned with
whatever lifetime the auth response declares; with `expires_in = 0` the
returned token has 0 seconds of remaining validity at issuance, not ≥ 60. -/
theorem token_validity_counterexample :
    (get_amadeus_token { credsConfigured := true, now := 0, response := .success "tok" (some 0) }
        { token := none, expires_at := 0 }).1 = .ok (some "tok") ∧
    (get_amadeus_token { credsConfigured := true, now := 0, response := .success "tok" (some 0) }
        { token := none, expires_at := 0 }).2.expires_at - 0 < 60 := by
  constructor
  · rfl
  · decide

/-- Claim C5 (amended): a token served from the cache has more than 60
seconds of remaining validity at the moment of issuance; a freshly obtained
token's remaining validity equals the lifetime declared by the auth
response (default 1799 s), which is ≥ 60 s only when that declared lifetime
is ≥ 60 s. -/
theorem token_validity (env : TokenEnv) (cache : TokenCache) :
    (∀ t, cache.token = some t → env.now < cache.expires_at - 60 →
      get_amadeus_token env cache = (.ok (some t), cache) ∧
        60 < cache.expires_at - env.now) ∧
    (∀ tok expIn, cache.token = none → env.credsConfigured = true →
      env.response = .success tok expIn →
      (get_amadeus_token env cache).2.expires_at - env.now = expIn.getD 1799) := by
  constructor
  · intro t ht hlt
    refine ⟨?_, by omega⟩
    simp [get_amadeus_token, ht, hlt]
  · intro tok expIn hmiss hc hr
    simp [get_amadeus_token, hmiss, requestNewToken, hc, hr]

theorem token_validity_witness :
    get_amadeus_token { credsConfigured := true, now := 100, response := .failure "unused" }
        { token := some "cached", expires_at := 200 } =
      (.ok (some "cached"), { token := some "cached", expires_at := 200 }) :=
  ((token_validity { credsConfigured := true, now := 100, response := .failure "unused" }
      { token := some "cached", expires_at := 200 }).1 "cached" rfl (by decide)).1

-- --- SEARCH CLIENT (find_flights, src/app.py lines 233-297) ---

/-- One outcome of `requests.get` against the flight-offers endpoint:
either an HTTP response with its status code and the offer list its body
parses to (relevant only when the status is a success), or a
transport-level `requests.exceptions.RequestException`. -/
inductive Attempt where
  | resp (code : Nat) (offers : List Offer)
  | transport (detail : String)
deriving DecidableEq, Repr

/-- What one `find_flights` call does: return a list of parsed offers, or
raise `AmadeusApiError msg`. -/
inductive FFResult where
  | ok (offers : List Offer)
  | apiError (msg : String)
deriving DecidableEq, Repr

def FFResult.isApiError : FFResult → Bool
  | .ok _ => false
  | .apiError _ => true

/-- The `AmadeusApiError` message of src/app.py line 258 (retries
exhausted). -/
def rateLimitMsg : String :=
  "Das API-Ratenlimit wurde auch nach mehreren Versuchen überschritten. Die Suche wurde abgebrochen."

/-- The `AmadeusApiError` message of src/app.py line 295 (transport-level
failure, or the `HTTPError` raised by `raise_for_status`). -/
def transportMsg (detail : String) : String :=
  "Die Amadeus API ist aufgrund eines Verbindungsfehlers nicht erreichbar. Details: " ++ detail

/-- The `AmadeusApiError` message of src/app.py line 297 (unreachable
fall-through after the loop). -/
def unknownMsg : String := "Unbekannter Fehler bei der Flugsuche."

/-- The string form of the `HTTPError` raised by `raise_for_status` for a
non-success status code. -/
def httpDetail (code : Nat) : String := toString code ++ " Error"

/-- The retry loop of `find_flights` (src/app.py lines 250-297).  The first
argument is the loop variable `attempt` (0-based); the list supplies the
outcome of `requests.get` of each attempt in order.  Returns the result of
the call and the list of `time.sleep` backoff delays performed (in
seconds), in order. -/
def ff_loop : Nat → List Attempt → FFResult × List Nat
  | _, [] => (.apiError unknownMsg, [])
  | _, .transport d :: _ => (.apiError (transportMsg d), [])
  | attempt, .resp code offers :: rest =>
    if code = 429 then
      if attempt = 2 then (.apiError rateLimitMsg, [])
      else
        let r := ff_loop (attempt + 1) rest
        (r.1, 2 ^ attempt :: r.2)
    else if code = 400 then (.ok [], [])
    else if 400 ≤ code ∧ code < 600 then (.apiError (transportMsg (httpDetail code)), [])
    else (.ok offers, [])

/-- Function `find_flights` of src/app.py, abstracted over the per-attempt HTTP
outcomes.  The enrichment of each offer (airport/airline names) is part of
the parsing that produces the `offers` payload of a success response. -/
def find_flights (responses : List Attempt) : FFResult × List Nat :=
  ff_loop 0 responses

theorem ff_loop_two_delays : ∀ rs : List Attempt, (ff_loop 2 rs).2 = []
  | [] => rfl
  | .transport _ :: _ => rfl
  | .resp code offers :: rest => by
    by_cases h429 : code = 429
    · simp [ff_loop, h429]
    · by_cases h400 : code = 400
      · simp [ff_loop, h429, h400]
      · by_cases herr : 400 ≤ code ∧ code < 600
        · simp [ff_loop, h429, h400, herr]
        · simp [ff_loop, h429, h400, herr]

theorem ff_loop_one_delays (rs : List Attempt) :
    (ff_loop 1 rs).2 = [] ∨ (ff_loop 1 rs).2 = [2] := by
  match rs with
  | [] => exact Or.inl rfl
  | .transport _ :: _ => exact Or.inl rfl
  | .resp code offers :: rest =>
    by_cases h429 : code = 429
    · right
      simp [ff_loop, h429, ff_loop_two_delays rest]
    · by_cases h400 : code = 400
      · exact Or.inl (by simp [ff_loop, h429, h400])
      · by_cases herr : 400 ≤ code ∧ code < 600
        · exact Or.inl (by simp [ff_loop, h429, h400, herr])
        · exact Or.inl (by simp [ff_loop, h429, h400, herr])

/-- Claim C3: a 429 response triggers a retry with at most 3 total attempts
(hence at most two backoff sleeps, following the schedule 1 s, 2 s, 4 s =
2^attempt; the 4 s entry is never reached because the third attempt raises
instead of sleeping); a call that receives 429 on all 3 attempts fails with
the rate-limit-exhausted `AmadeusApiError`, and a call that receives 429
exactly twice and then 200 succeeds using exactly 3 attempts with delays of
1 s then 2 s. -/
theorem find_flights_retry_backoff :
    (∀ rs : List Attempt, (find_flights rs).2 = [] ∨ (find_flights rs).2 = [1] ∨
      (find_flights rs).2 = [1, 2]) ∧
    (∀ (o₁ o₂ o₃ : List Offer) (rest : List Attempt),
      find_flights (.resp 429 o₁ :: .resp 429 o₂ :: .resp 429 o₃ :: rest) =
        (.apiError rateLimitMsg, [1, 2])) ∧
    (∀ (o₁ o₂ offers : List Offer) (rest : List Attempt),
      find_flights (.resp 429 o₁ :: .resp 429 o₂ :: .resp 200 offers :: rest) =
        (.ok offers, [1, 2])) := by
  refine ⟨?_, ?_, ?_⟩
  · intro rs
    match rs with
    | [] => exact Or.inl rfl
    | .transport _ :: _ => exact Or.inl rfl
    | .resp code offers :: rest =>
      by_cases h429 : code = 429
      · rcases ff_loop_one_delays rest with h | h
        · right; left
          simp [find_flights, ff_loop, h429, h]
        · right; right
          simp [find_flights, ff_loop, h429, h]
      · by_cases h400 : code = 400
        · exact Or.inl (by simp [find_flights, ff_loop, h429, h400])
        · by_cases herr : 400 ≤ code ∧ code < 600
          · exact Or.inl (by simp [find_flights, ff_loop, h429, h400, herr])
          · exact Or.inl (by simp [find_flights, ff_loop, h429, h400, herr])
  · intro o₁ o₂ o₃ rest
    simp [find_flights, ff_loop]
  · intro o₁ o₂ offers rest
    simp [find_flights, ff_loop]

end App

namespace Gbf

/-- Function `find_flights` from src/get_booked_flights.py lines 48-102: no retry
logic; status 400 returns the empty list; any other caught
`RequestException` (including the `HTTPError` of `raise_for_status` on a
non-success status, e.g. 429) is logged and also yields the empty list;
a success response yields its parsed offers. -/
def find_flights : App.Attempt → List Offer
  | .transport _ => []
  | .resp code offers =>
    if code = 400 then []
    else if 400 ≤ code ∧ code < 600 then []
    else offers

end Gbf

namespace App

-- --- RESULT ORDERING (src/app.py line 404) ---

/-- The comparison `all_found_flights.sort(key=lambda x: (x['date'],
x['departure_time']))` sorts by: Python's stable sort ordered by the
lexicographic tuple of the two strings. -/
def keyLe (a b : Offer) : Prop :=
  a.date < b.date ∨ (a.date = b.date ∧ a.departure_time ≤ b.departure_time)

instance : DecidableRel keyLe := fun a b =>
  inferInstanceAs
    (Decidable (a.date < b.date ∨ (a.date = b.date ∧ a.departure_time ≤ b.departure_time)))

instance : IsTotal Offer keyLe :=
  ⟨fun a b => by
    rcases lt_trichotomy a.date b.date with h | h | h
    · exact Or.inl (Or.inl h)
    · rcases le_total a.departure_time b.departure_time with ht | ht
      · exact Or.inl (Or.inr ⟨h, ht⟩)
      · exact Or.inr (Or.inr ⟨h.symm, ht⟩)
    · exact Or.inr (Or.inl h)⟩

instance : IsTrans Offer keyLe :=
  ⟨fun a b c hab hbc => by
    rcases hab with hab | ⟨hd, ht⟩
    · rcases hbc with hbc | ⟨hd', _⟩
      · exact Or.inl (hab.trans hbc)
      · exact Or.inl (hd' ▸ hab)
    · rcases hbc with hbc | ⟨hd', ht'⟩
      · exact Or.inl (hd ▸ hbc)
      · exact Or.inr ⟨hd.trans hd', ht.trans ht'⟩⟩

/-- The sort call `all_found_flights.sort(key=lambda x: (x['date'], x['departure_time']))`
(src/app.py line 404): Python's `list.sort` is a stable sort, modelled by
Mathlib's stable `insertionSort`. -/
def sortFlights (fs : List Offer) : List Offer :=
  List.insertionSort keyLe fs

/-- Membership in one `(date, departure_time)` key class. -/
def sameKey (d t : String) (o : Offer) : Bool :=
  o.date == d && o.departure_time == t

theorem keyLe_of_sameKey {d t : String} {a b : Offer}
    (ha : sameKey d t a = true) (hb : sameKey d t b = true) : keyLe a b := by
  have ha' := ha
  have hb' := hb
  simp only [sameKey, Bool.and_eq_true, beq_iff_eq] at ha' hb'
  exact Or.inr ⟨ha'.1.trans hb'.1.symm, le_of_eq (ha'.2.trans hb'.2.symm)⟩

theorem filter_orderedInsert (d t : String) (a : Offer) :
    ∀ s : List Offer,
      (List.orderedInsert keyLe a s).filter (sameKey d t) =
        if sameKey d t a then a :: s.filter (sameKey d t) else s.filter (sameKey d t)
  | [] => by
    by_cases ha : sameKey d t a = true <;> simp [List.orderedInsert, List.filter, ha]
  | b :: s => by
    by_cases hle : keyLe a b
    · by_cases ha : sameKey d t a = true <;>
        simp [List.orderedInsert, hle, List.filter_cons, ha]
    · by_cases ha : sameKey d t a = true
      · have hb : ¬ sameKey d t b = true := fun hb => hle (keyLe_of_sameKey ha hb)
        simp [List.orderedInsert, hle, List.filter_cons, ha, hb,
          filter_orderedInsert d t a s]
      · by_cases hb : sameKey d t b = true <;>
          simp [List.orderedInsert, hle, List.filter_cons, ha, hb,
            filter_orderedInsert d t a s]

theorem filter_sortFlights (d t : String) :
    ∀ fs : List Offer, (sortFlights fs).filter (sameKey d t) = fs.filter (sameKey d t)
  | [] => rfl
  | a :: fs => by
    have ih := filter_sortFlights d t fs
    simp only [sortFlights] at ih ⊢
    by_cases ha : sameKey d t a = true <;>
      simp [List.insertionSort, filter_orderedInsert, ha, ih, List.filter_cons]

-- --- SEARCH ORCHESTRATOR (the /search handler, src/app.py lines 327-419) ---

/-- Externally observable interactions of one `/search` request, in program
order: the quota reservation, the token fetch against the auth endpoint,
and one flight-offers request submitted per day of the range. -/
inductive Effect where
  | quotaReserve (n : Nat)
  | tokenFetch
  | apiCall (day : Nat)
deriving DecidableEq, Repr

/-- What the handler renders: a redirect to the index page with an error
message (validation and quota failures), the error page (exceptions during
the search), or the results page with the final flight list. -/
inductive SearchOutcome where
  | redirectError (msg : String)
  | errorPage (msg : String)
  | results (flights : List Offer)
deriving DecidableEq, Repr

/-- One `/search` request's outcome together with the persisted quota file
afterwards and the trace of external interactions performed. -/
structure SearchResult where
  outcome : SearchOutcome
  quotaFile : Option QuotaUsage
  effects : List Effect
deriving DecidableEq, Repr

def endBeforeStartMsg : String := "The end date cannot be before the start date."

def rangeTooLongMsg : String := "The date range cannot exceed 7 days."

/-- The quota redirect message of src/app.py line 360 (with
`DAILY_API_CALL_LIMIT = 1000` interpolated). -/
def quotaLimitMsg : String :=
  "Das tägliche API-Limit von 1000 Aufrufen wurde erreicht. Bitte versuchen Sie es morgen erneut."

/-- The fallback error of src/app.py line 367 when `get_amadeus_token`
returns `None`. -/
def noTokenMsg : String :=
  "Konnte keinen API-Token erhalten. Überprüfen Sie Ihre Credentials und die Server-Logs."

/-- The `as_completed` collection loop of src/app.py lines 379-385: extend
the accumulated list with each completed result; the first result that
raises aborts the pool and re-raises, discarding everything collected so
far.  The input lists the per-day `find_flights` results in completion
order. -/
def collectResults : List FFResult → Except String (List Offer)
  | [] => .ok []
  | .apiError m :: _ => .error m
  | .ok fs :: rest =>
    match collectResults rest with
    | .ok acc => .ok (fs ++ acc)
    | .error m => .error m

/-- The optional seat-ceiling filter of src/app.py lines 394-397: keep
offers with strictly fewer seats than the ceiling. -/
def seatFilter (maxSeats : Option Nat) (fs : List Offer) : List Offer :=
  match maxSeats with
  | some m => fs.filter (fun f => f.seats < m)
  | none => fs

/-- The `/search` handler of src/app.py lines 327-419, for a request whose
fields are present and whose dates parse (dates are modelled as day
numbers, so `end_date - start_date` is `endD - startD` and day `i` of the
range is `startD + i`).  Parameters supply the ambient state: the current
day, the persisted quota file and whether its write-back succeeds, the
token-cache environment, and the per-day `find_flights` results in
completion order. -/
def search (today : String) (startD endD : Nat) (writeOk : Bool)
    (quotaFile : Option QuotaUsage) (env : TokenEnv) (cache : TokenCache)
    (completed : List FFResult) (maxSeats : Option Nat) : SearchResult :=
  if endD < startD then
    { outcome := .redirectError endBeforeStartMsg, quotaFile := quotaFile, effects := [] }
  else if 6 < endD - startD then
    { outcome := .redirectError rangeTooLongMsg, quotaFile := quotaFile, effects := [] }
  else
    let n := endD - startD + 1
    let q := check_and_consume_quota today quotaFile writeOk n
    if q.ok = false then
      { outcome := .redirectError quotaLimitMsg, quotaFile := q.file,
        effects := [.quotaReserve n] }
    else
      match get_amadeus_token env cache with
      | (.error msg, _) =>
        { outcome := .errorPage msg, quotaFile := q.file,
          effects := [.quotaReserve n, .tokenFetch] }
      | (.ok none, _) =>
        { outcome := .errorPage noTokenMsg, quotaFile := q.file,
          effects := [.quotaReserve n, .tokenFetch] }
      | (.ok (some _), _) =>
        let effs := [Effect.quotaReserve n, Effect.tokenFetch] ++
          (List.range n).map (fun i => Effect.apiCall (startD + i))
        match collectResults completed with
        | .error msg =>
          { outcome := .errorPage msg, quotaFile := q.file, effects := effs }
        | .ok offers =>
          { outcome := .results (sortFlights (seatFilter maxSeats offers)),
            quotaFile := q.file, effects := effs }

def Effect.isApiCall : Effect → Bool
  | .apiCall _ => true
  | _ => false

theorem quota_file_of_ok (today : String) (f : Option QuotaUsage) (w : Bool) (n : Nat)
    (h : (check_and_consume_quota today f w n).ok = true) :
    (check_and_consume_quota today f w n).file =
      some { date := today, count := effCount today f + n } := by
  rw [check_usage_count] at h ⊢
  by_cases hgt : DAILY_API_CALL_LIMIT < effCount today f + n
  · simp [hgt] at h
  · by_cases hw : w = true
    · simp [hgt, hw]
    · simp [hgt, hw] at h

theorem quota_file_of_not_ok (today : String) (f : Option QuotaUsage) (w : Bool) (n : Nat)
    (h : (check_and_consume_quota today f w n).ok = false) :
    (check_and_consume_quota today f w n).file = f := by
  rw [check_usage_count] at h ⊢
  by_cases hgt : DAILY_API_CALL_LIMIT < effCount today f + n
  · simp [hgt]
  · by_cases hw : w = true
    · simp [hgt, hw] at h
    · simp [hgt, hw]

theorem search_quota_fail (today : String) (startD endD : Nat) (writeOk : Bool)
    (quotaFile : Option QuotaUsage) (env : TokenEnv) (cache : TokenCache)
    (completed : List FFResult) (maxSeats : Option Nat)
    (h1 : startD ≤ endD) (h2 : endD - startD ≤ 6)
    (h3 : (check_and_consume_quota today quotaFile writeOk (endD - startD + 1)).ok = false) :
    search today startD endD writeOk quotaFile env cache completed maxSeats =
      { outcome := .redirectError quotaLimitMsg, quotaFile := quotaFile,
        effects := [.quotaReserve (endD - startD + 1)] } := by
  simp [search, Nat.not_lt.mpr h1, Nat.not_lt.mpr h2, h3,
    quota_file_of_not_ok today quotaFile writeOk (endD - startD + 1) h3]

theorem search_token_error (today : String) (startD endD : Nat) (writeOk : Bool)
    (quotaFile : Option QuotaUsage) (env : TokenEnv) (cache : TokenCache)
    (completed : List FFResult) (maxSeats : Option Nat)
    (h1 : startD ≤ endD) (h2 : endD - startD ≤ 6)
    (h3 : (check_and_consume_quota today quotaFile writeOk (endD - startD + 1)).ok = true)
    (m : String) (h4 : (get_amadeus_token env cache).1 = .error m) :
    search today startD endD writeOk quotaFile env cache completed maxSeats =
      { outcome := .errorPage m,
        quotaFile := (check_and_consume_quota today quotaFile writeOk (endD - startD + 1)).file,
        effects := [.quotaReserve (endD - startD + 1), .tokenFetch] } := by
  cases hg : get_amadeus_token env cache with
  | mk fst snd =>
    rw [hg] at h4
    simp only at h4
    subst h4
    simp [search, Nat.not_lt.mpr h1, Nat.not_lt.mpr h2, h3, hg]

theorem search_token_none (today : String) (startD endD : Nat) (writeOk : Bool)
    (quotaFile : Option QuotaUsage) (env : TokenEnv) (cache : TokenCache)
    (completed : List FFResult) (maxSeats : Option Nat)
    (h1 : startD ≤ endD) (h2 : endD - startD ≤ 6)
    (h3 : (check_and_consume_quota today quotaFile writeOk (endD - startD + 1)).ok = true)
    (h4 : (get_amadeus_token env cache).1 = .ok none) :
    search today startD endD writeOk quotaFile env cache completed maxSeats =
      { outcome := .errorPage noTokenMsg,
        quotaFile := (check_and_consume_quota today quotaFile writeOk (endD - startD + 1)).file,
        effects := [.quotaReserve (endD - startD + 1), .tokenFetch] } := by
  cases hg : get_amadeus_token env cache with
  | mk fst snd =>
    rw [hg] at h4
    simp only at h4
    subst h4
    simp [search, Nat.not_lt.mpr h1, Nat.not_lt.mpr h2, h3, hg]

theorem search_collect_error (today : String) (startD endD : Nat) (writeOk : Bool)
    (quotaFile : Option QuotaUsage) (env : TokenEnv) (cache : TokenCache)
    (completed : List FFResult) (maxSeats : Option Nat)
    (h1 : startD ≤ endD) (h2 : endD - startD ≤ 6)
    (h3 : (check_and_consume_quota today quotaFile writeOk (endD - startD + 1)).ok = true)
    (t : String) (h4 : (get_amadeus_token env cache).1 = .ok (some t))
    (m : String) (hc : collectResults completed = .error m) :
    search today startD endD writeOk quotaFile env cache completed maxSeats =
      { outcome := .errorPage m,
        quotaFile := (check_and_consume_quota today quotaFile writeOk (endD - startD + 1)).file,
        effects := [Effect.quotaReserve (endD - startD + 1), Effect.tokenFetch] ++
          (List.range (endD - startD + 1)).map (fun i => Effect.apiCall (startD + i)) } := by
  cases hg : get_amadeus_token env cache with
  | mk fst snd =>
    rw [hg] at h4
    simp only at h4
    subst h4
    simp [search, Nat.not_lt.mpr h1, Nat.not_lt.mpr h2, h3, hg, hc]

theorem search_collect_ok (today : String) (startD endD : Nat) (writeOk : Bool)
    (quotaFile : Option QuotaUsage) (env : TokenEnv) (cache : TokenCache)
    (completed : List FFResult) (maxSeats : Option Nat)
    (h1 : startD ≤ endD) (h2 : endD - startD ≤ 6)
    (h3 : (check_and_consume_quota today quotaFile writeOk (endD - startD + 1)).ok = true)
    (t : String) (h4 : (get_amadeus_token env cache).1 = .ok (some t))
    (offers : List Offer) (hc : collectResults completed = .ok offers) :
    search today startD endD writeOk quotaFile env cache completed maxSeats =
      { outcome := .results (sortFlights (seatFilter maxSeats offers)),
        quotaFile := (check_and_consume_quota today quotaFile writeOk (endD - startD + 1)).file,
        effects := [Effect.quotaReserve (endD - startD + 1), Effect.tokenFetch] ++
          (List.range (endD - startD + 1)).map (fun i => Effect.apiCall (startD + i)) } := by
  cases hg : get_amadeus_token env cache with
  | mk fst snd =>
    rw [hg] at h4
    simp only at h4
    subst h4
    simp [search, Nat.not_lt.mpr h1, Nat.not_lt.mpr h2, h3, hg, hc]

theorem collectResults_error_of_mem :
    ∀ l : List FFResult, (∃ r ∈ l, FFResult.isApiError r = true) →
      ∃ m, collectResults l = .error m
  | [], h => by simp at h
  | .apiError m :: _, _ => ⟨m, rfl⟩
  | .ok fs :: rest, h => by
    have hrest : ∃ r ∈ rest, FFResult.isApiError r = true := by
      rcases h with ⟨r, hr, hap⟩
      rcases List.mem_cons.mp hr with hr | hr
      · rw [hr] at hap; simp [FFResult.isApiError] at hap
      · exact ⟨r, hr, hap⟩
    rcases collectResults_error_of_mem rest hrest with ⟨m, hm⟩
    exact ⟨m, by simp [collectResults, hm]⟩

theorem collectResults_skip_empty :
    ∀ l₁ l₂ : List FFResult,
      collectResults (l₁ ++ .ok [] :: l₂) = collectResults (l₁ ++ l₂)
  | [], l₂ => by
    cases h : collectResults l₂ <;> simp [collectResults, h]
  | .apiError m :: _, l₂ => by simp [collectResults]
  | .ok fs :: rest, l₂ => by
    simp [collectResults, collectResults_skip_empty rest l₂]

/-- A concrete offer used by the closed witnesses. -/
def sampleOffer : Offer :=
  { date := "2025-06-01", departure_time := "10:00:00", arrival_time := "12:00:00",
    flight := "LH 123", airline_name := "Lufthansa", seats := 5, price := "100.00 EUR" }

/-- Claim C2: for every multi-day search in which at least one per-day
query raised `AmadeusApiError`, the `/search` handler renders the error
page and returns no flight offers at all — offers already collected from
queries that completed before the failure are discarded, never returned as
a partial result set. -/
theorem search_fail_fast (today : String) (startD endD : Nat) (writeOk : Bool)
    (quotaFile : Option QuotaUsage) (env : TokenEnv) (cache : TokenCache)
    (completed : List FFResult) (maxSeats : Option Nat)
    (h1 : startD ≤ endD) (h2 : endD - startD ≤ 6)
    (h3 : (check_and_consume_quota today quotaFile writeOk (endD - startD + 1)).ok = true)
    (t : String) (h4 : (get_amadeus_token env cache).1 = .ok (some t))
    (hf : ∃ r ∈ completed, FFResult.isApiError r = true) :
    (∃ m, (search today startD endD writeOk quotaFile env cache completed maxSeats).outcome =
      .errorPage m) ∧
    ∀ fs, (search today startD endD writeOk quotaFile env cache completed maxSeats).outcome ≠
      .results fs := by
  rcases collectResults_error_of_mem completed hf with ⟨m, hm⟩
  rw [search_collect_error today startD endD writeOk quotaFile env cache completed maxSeats
    h1 h2 h3 t h4 m hm]
  exact ⟨⟨m, rfl⟩, fun fs h => by simp at h⟩

theorem search_fail_fast_witness :
    (search "2025-10-12" 0 1 true none
        { credsConfigured := true, now := 0, response := .failure "unused" }
        { token := some "tok", expires_at := 1000 }
        [.ok [sampleOffer], .apiError "boom"] none).outcome ≠ .results [] :=
  (search_fail_fast "2025-10-12" 0 1 true none
      { credsConfigured := true, now := 0, response := .failure "unused" }
      { token := some "tok", expires_at := 1000 }
      [.ok [sampleOffer], .apiError "boom"] none
      (by decide) (by decide) (by decide) "tok" (by decide)
      ⟨.apiError "boom", by decide, rfl⟩).2 []

/-- Claim C6: a search whose quota reservation fails redirects with the
quota-exceeded error, leaves the persisted quota file unchanged, and
performs no token fetch and no upstream flight-offers request. -/
theorem search_quota_exceeded_no_network (today : String) (startD endD : Nat) (writeOk : Bool)
    (quotaFile : Option QuotaUsage) (env : TokenEnv) (cache : TokenCache)
    (completed : List FFResult) (maxSeats : Option Nat)
    (h1 : startD ≤ endD) (h2 : endD - startD ≤ 6)
    (h3 : (check_and_consume_quota today quotaFile writeOk (endD - startD + 1)).ok = false) :
    search today startD endD writeOk quotaFile env cache completed maxSeats =
      { outcome := .redirectError quotaLimitMsg, quotaFile := quotaFile,
        effects := [.quotaReserve (endD - startD + 1)] } ∧
    Effect.tokenFetch ∉
      (search today startD endD writeOk quotaFile env cache completed maxSeats).effects ∧
    ∀ d, Effect.apiCall d ∉
      (search today startD endD writeOk quotaFile env cache completed maxSeats).effects := by
  have h := search_quota_fail today startD endD writeOk quotaFile env cache completed maxSeats
    h1 h2 h3
  refine ⟨h, ?_, ?_⟩
  · rw [h]; simp
  · intro d; rw [h]; simp

theorem search_quota_exceeded_no_network_witness :
    get_remaining_quota "2025-10-12" (some { date := "2025-10-12", count := 997 }) = 3 ∧
    search "2025-10-12" 0 4 true (some { date := "2025-10-12", count := 997 })
        { credsConfigured := true, now := 0, response := .failure "unused" }
        { token := none, expires_at := 0 } [] none =
      { outcome := .redirectError quotaLimitMsg,
        quotaFile := some { date := "2025-10-12", count := 997 },
        effects := [.quotaReserve 5] } :=
  ⟨by decide,
    (search_quota_exceeded_no_network "2025-10-12" 0 4 true
        (some { date := "2025-10-12", count := 997 })
        { credsConfigured := true, now := 0, response := .failure "unused" }
        { token := none, expires_at := 0 } [] none
        (by decide) (by decide) (by decide)).1⟩

theorem filter_apiCall_effects (n s : Nat) :
    (([Effect.quotaReserve n, Effect.tokenFetch] ++
        (List.range n).map (fun i => Effect.apiCall (s + i))).filter Effect.isApiCall).length
      = n := by
  simp [List.filter_append, List.filter_map, Effect.isApiCall, Function.comp_def]

/-- Claim C7: the `/search` handler rejects `end_date < start_date` and a
range spanning more than 7 calendar days (day difference above 6) with a
validation redirect before any quota consumption or network interaction,
and for every valid range that passes the quota and token steps it submits
exactly `(end_date - start_date) + 1` per-day flight-offer queries, one for
each consecutive day of the range. -/
theorem search_validation_and_fanout (today : String) (startD endD : Nat) (writeOk : Bool)
    (quotaFile : Option QuotaUsage) (env : TokenEnv) (cache : TokenCache)
    (completed : List FFResult) (maxSeats : Option Nat) :
    (endD < startD →
      search today startD endD writeOk quotaFile env cache completed maxSeats =
        { outcome := .redirectError endBeforeStartMsg, quotaFile := quotaFile,
          effects := [] }) ∧
    (startD ≤ endD → 6 < endD - startD →
      search today startD endD writeOk quotaFile env cache completed maxSeats =
        { outcome := .redirectError rangeTooLongMsg, quotaFile := quotaFile,
          effects := [] }) ∧
    (startD ≤ endD → endD - startD ≤ 6 →
      (check_and_consume_quota today quotaFile writeOk (endD - startD + 1)).ok = true →
      ∀ t, (get_amadeus_token env cache).1 = .ok (some t) →
      (search today startD endD writeOk quotaFile env cache completed maxSeats).effects =
        [Effect.quotaReserve (endD - startD + 1), Effect.tokenFetch] ++
          (List.range (endD - startD + 1)).map (fun i => Effect.apiCall (startD + i)) ∧
      (((search today startD endD writeOk quotaFile env cache completed
          maxSeats).effects.filter Effect.isApiCall)).length = endD - startD + 1) := by
  refine ⟨?_, ?_, ?_⟩
  · intro h
    simp [search, h]
  · intro h1 h2
    simp [search, Nat.not_lt.mpr h1, h2]
  · intro h1 h2 h3 t h4
    cases hc : collectResults completed with
    | error m =>
      rw [search_collect_error today startD endD writeOk quotaFile env cache completed maxSeats
        h1 h2 h3 t h4 m hc]
      exact ⟨rfl, filter_apiCall_effects _ _⟩
    | ok offers =>
      rw [search_collect_ok today startD endD writeOk quotaFile env cache completed maxSeats
        h1 h2 h3 t h4 offers hc]
      exact ⟨rfl, filter_apiCall_effects _ _⟩

theorem search_validation_and_fanout_witness :
    (search "2025-10-12" 10 12 true none
        { credsConfigured := true, now := 0, response := .failure "unused" }
        { token := some "tok", expires_at := 1000 } [.ok []] none).effects =
      [Effect.quotaReserve 3, Effect.tokenFetch] ++
        (List.range 3).map (fun i => Effect.apiCall (10 + i)) :=
  ((search_validation_and_fanout "2025-10-12" 10 12 true none
      { credsConfigured := true, now := 0, response := .failure "unused" }
      { token := some "tok", expires_at := 1000 } [.ok []] none).2.2
    (by decide) (by decide) (by decide) "tok" (by decide)).1

/-- Claim C8: an upstream HTTP 400 response makes `find_flights` return
normally with zero offers and no backoff sleep (in both src/app.py and
src/get_booked_flights.py), no `AmadeusApiError` is raised, and the
surrounding multi-day collection treats such an empty per-day result as a
no-op: the search continues normally. -/
theorem http400_is_empty_not_error :
    (∀ (offers : List Offer) (rest : List Attempt),
      find_flights (.resp 400 offers :: rest) = (.ok [], [])) ∧
    (∀ l₁ l₂ : List FFResult,
      collectResults (l₁ ++ .ok [] :: l₂) = collectResults (l₁ ++ l₂)) ∧
    (∀ offers : List Offer, Gbf.find_flights (.resp 400 offers) = []) := by
  refine ⟨?_, collectResults_skip_empty, ?_⟩
  · intro offers rest
    rfl
  · intro offers
    rfl

/-- Claim C9: on full success the handler renders exactly the stably
sorted, seat-filtered concatenation of the per-day results; the sort orders
by the key `(date, departure_time)` ascending, is idempotent (sorting an
already-sorted sequence is a no-op), and is stable: for every key value,
the subsequence of offers with that key is preserved in original discovery
order. -/
theorem search_results_sorted_stable_idempotent :
    (∀ (today : String) (startD endD : Nat) (writeOk : Bool) (quotaFile : Option QuotaUsage)
      (env : TokenEnv) (cache : TokenCache) (completed : List FFResult)
      (maxSeats : Option Nat) (offers : List Offer) (t : String),
      startD ≤ endD → endD - startD ≤ 6 →
      (check_and_consume_quota today quotaFile writeOk (endD - startD + 1)).ok = true →
      (get_amadeus_token env cache).1 = .ok (some t) →
      collectResults completed = .ok offers →
      (search today startD endD writeOk quotaFile env cache completed maxSeats).outcome =
        .results (sortFlights (seatFilter maxSeats offers))) ∧
    (∀ fs : List Offer, List.Sorted keyLe (sortFlights fs)) ∧
    (∀ fs : List Offer, sortFlights (sortFlights fs) = sortFlights fs) ∧
    (∀ (fs : List Offer) (d t : String),
      (sortFlights fs).filter (sameKey d t) = fs.filter (sameKey d t)) := by
  refine ⟨?_, ?_, ?_, fun fs d t => filter_sortFlights d t fs⟩
  · intro today startD endD writeOk quotaFile env cache completed maxSeats offers t
      h1 h2 h3 h4 hc
    rw [search_collect_ok today startD endD writeOk quotaFile env cache completed maxSeats
      h1 h2 h3 t h4 offers hc]
  · intro fs
    exact List.sorted_insertionSort keyLe fs
  · intro fs
    exact (List.sorted_insertionSort keyLe fs).insertionSort_eq

theorem search_results_sorted_witness :
    (search "2025-10-12" 0 0 true none
        { credsConfigured := true, now := 0, response := .failure "unused" }
        { token := some "tok", expires_at := 1000 } [.ok [sampleOffer]] none).outcome =
      .results (sortFlights (seatFilter none [sampleOffer])) :=
  search_results_sorted_stable_idempotent.1 "2025-10-12" 0 0 true none
    { credsConfigured := true, now := 0, response := .failure "unused" }
    { token := some "tok", expires_at := 1000 } [.ok [sampleOffer]] none [sampleOffer] "tok"
    (by decide) (by decide) (by decide) (by decide) rfl

/-- Claim C10 (implicit): once a search's quota reservation succeeds, the
consumed count is never rolled back — when the search subsequently fails
(token fetch failure, the `None`-token fallback, or any per-day query
raising `AmadeusApiError`), no results are rendered and the persisted quota
file still carries the full reserved amount. -/
theorem search_quota_not_rolled_back (today : String) (startD endD : Nat) (writeOk : Bool)
    (quotaFile : Option QuotaUsage) (env : TokenEnv) (cache : TokenCache)
    (completed : List FFResult) (maxSeats : Option Nat)
    (h1 : startD ≤ endD) (h2 : endD - startD ≤ 6)
    (h3 : (check_and_consume_quota today quotaFile writeOk (endD - startD + 1)).ok = true)
    (hfail : (∃ m, (get_amadeus_token env cache).1 = .error m) ∨
      (get_amadeus_token env cache).1 = .ok none ∨
      (∃ r ∈ completed, FFResult.isApiError r = true)) :
    (∀ fs, (search today startD endD writeOk quotaFile env cache completed maxSeats).outcome ≠
      .results fs) ∧
    (search today startD endD writeOk quotaFile env cache completed maxSeats).quotaFile =
      some { date := today, count := effCount today quotaFile + (endD - startD + 1) } := by
  rcases hfail with ⟨m, hm⟩ | hm | hf
  · rw [search_token_error today startD endD writeOk quotaFile env cache completed maxSeats
      h1 h2 h3 m hm, quota_file_of_ok today quotaFile writeOk (endD - startD + 1) h3]
    exact ⟨fun fs h => by simp at h, rfl⟩
  · rw [search_token_none today startD endD writeOk quotaFile env cache completed maxSeats
      h1 h2 h3 hm, quota_file_of_ok today quotaFile writeOk (endD - startD + 1) h3]
    exact ⟨fun fs h => by simp at h, rfl⟩
  · cases hg : (get_amadeus_token env cache).1 with
    | error m =>
      rw [search_token_error today startD endD writeOk quotaFile env cache completed maxSeats
        h1 h2 h3 m hg, quota_file_of_ok today quotaFile writeOk (endD - startD + 1) h3]
      exact ⟨fun fs h => by simp at h, rfl⟩
    | ok o =>
      cases o with
      | none =>
        rw [search_token_none today startD endD writeOk quotaFile env cache completed maxSeats
          h1 h2 h3 hg, quota_file_of_ok today quotaFile writeOk (endD - startD + 1) h3]
        exact ⟨fun fs h => by simp at h, rfl⟩
      | some t =>
        rcases collectResults_error_of_mem completed hf with ⟨m, hm⟩
        rw [search_collect_error today startD endD writeOk quotaFile env cache completed maxSeats
          h1 h2 h3 t hg m hm, quota_file_of_ok today quotaFile writeOk (endD - startD + 1) h3]
        exact ⟨fun fs h => by simp at h, rfl⟩

theorem search_quota_not_rolled_back_witness :
    (search "2025-10-12" 0 0 true none
        { credsConfigured := true, now := 0, response := .failure "down" }
        { token := none, expires_at := 0 } [] none).quotaFile =
      some { date := "2025-10-12", count := effCount "2025-10-12" none + 1 } :=
  (search_quota_not_rolled_back "2025-10-12" 0 0 true none
      { credsConfigured := true, now := 0, response := .failure "down" }
      { token := none, expires_at := 0 } [] none
      (by decide) (by decide) (by decide)
      (Or.inl ⟨authErrorMsg "down", rfl⟩)).2

end App

